import Mathlib

/-!
Verification development for the xDS control-plane core of the osm repository.

The decision logic verified here is translated from:
  - pkg/envoy/ads/stream.go  (request state machine, broadcast gating, startup)
  - pkg/catalog/dispatcher.go  (event coalescer)

The envoy helper package (type-URI table, per-type proxy state accessors) is
not part of the provided sources; those definitions are modelled from the
specification and are marked as such in their doc comments.
-/

namespace OSM

/-- Modelled from the spec: the known xDS type URIs (Cluster, ClusterLoadAssignment,
Listener, RouteConfiguration, Secret) plus the reserved empty sentinel.
The envoy package defining this enum is not under src/. -/
inductive TypeURI where
  | TypeCDS
  | TypeEDS
  | TypeLDS
  | TypeRDS
  | TypeSDS
  | TypeEmptyURI
deriving DecidableEq

/-- Modelled from the spec: map of recognized type-url strings to type URIs,
mirroring envoy.ValidURI (not under src/). Unknown strings map to none. -/
def ValidURI (url : String) : Option TypeURI :=
  if url = "type.googleapis.com/envoy.config.cluster.v3.Cluster" then
    some TypeURI.TypeCDS
  else if url = "type.googleapis.com/envoy.config.endpoint.v3.ClusterLoadAssignment" then
    some TypeURI.TypeEDS
  else if url = "type.googleapis.com/envoy.config.listener.v3.Listener" then
    some TypeURI.TypeLDS
  else if url = "type.googleapis.com/envoy.config.route.v3.RouteConfiguration" then
    some TypeURI.TypeRDS
  else if url = "type.googleapis.com/envoy.extensions.transport_sockets.tls.v3.Secret" then
    some TypeURI.TypeSDS
  else if url = "" then
    some TypeURI.TypeEmptyURI
  else
    none

/-- Modelled from the spec: CDS and LDS are the wildcard type URIs
(envoy.IsWildcardTypeURI is not under src/). -/
def IsWildcardTypeURI (t : TypeURI) : Bool :=
  t = TypeURI.TypeCDS ∨ t = TypeURI.TypeLDS

/-- Modelled from the spec: the per-type-URI xDS state a proxy carries
(last-sent-version, last-sent-nonce, last-applied-version, subscribed-resources,
last-sent-resources). Resource-name sets (mapset.Set in the source) are Finsets. -/
structure XDSState where
  lastSentVersion : Nat
  lastAppliedVersion : Nat
  lastSentNonce : String
  subscribedResources : Finset String
  lastResourcesSent : Finset String
deriving DecidableEq

/-- Fresh per-type state of a newly connected proxy: zero versions, empty nonce,
empty resource sets. -/
def XDSState.init : XDSState :=
  ⟨0, 0, "", ∅, ∅⟩

/-- Modelled from the spec: a connected proxy, reduced to its per-type-URI xDS
state map (the only part of envoy.Proxy the verified decision logic touches). -/
structure Proxy where
  state : TypeURI → XDSState

/-- Pointwise update of the per-type state map at one type URI. -/
def Proxy.updateState (p : Proxy) (t : TypeURI) (f : XDSState → XDSState) : Proxy :=
  ⟨fun u => if u = t then f (p.state u) else p.state u⟩

/-- Modelled from the spec: proxy accessor for the last-sent nonce of a type URI. -/
def GetLastSentNonce (p : Proxy) (t : TypeURI) : String :=
  (p.state t).lastSentNonce

/-- Modelled from the spec: proxy accessor for the last-sent version of a type URI. -/
def GetLastSentVersion (p : Proxy) (t : TypeURI) : Nat :=
  (p.state t).lastSentVersion

/-- Modelled from the spec: proxy accessor for the resource set last sent for a type URI. -/
def GetLastResourcesSent (p : Proxy) (t : TypeURI) : Finset String :=
  (p.state t).lastResourcesSent

/-- Modelled from the spec: setter for the last-sent version of a type URI. -/
def SetLastSentVersion (p : Proxy) (t : TypeURI) (v : Nat) : Proxy :=
  p.updateState t (fun s => { s with lastSentVersion := v })

/-- Modelled from the spec: setter for the last-applied version of a type URI. -/
def SetLastAppliedVersion (p : Proxy) (t : TypeURI) (v : Nat) : Proxy :=
  p.updateState t (fun s => { s with lastAppliedVersion := v })

/-- Modelled from the spec: setter for the subscribed-resources set of a type URI. -/
def SetSubscribedResources (p : Proxy) (t : TypeURI) (r : Finset String) : Proxy :=
  p.updateState t (fun s => { s with subscribedResources := r })

/-- The fields of an xDS DiscoveryRequest consumed by the core.
ErrorDetail keeps only presence and message (presence indicates a NACK). -/
structure DiscoveryRequest where
  TypeUrl : String
  VersionInfo : String
  ResponseNonce : String
  ResourceNames : List String
  ErrorDetail : Option String
deriving DecidableEq

/-- Decimal parse of an unsigned 64-bit integer, after Go's strconv.ParseUint
with base 10 and bitSize 64: digits only (no sign), non-empty, value below 2^64. -/
def parseUint64 (s : String) : Option Nat :=
  if s = "" then none
  else if s.data.all (fun c => c.isDigit) then
    let n := s.data.foldl (fun acc c => acc * 10 + (c.toNat - 48)) 0
    if n < 2 ^ 64 then some n else none
  else none

/-- parseRequestVersion from stream.go: empty VersionInfo parses to 0,
otherwise the version is parsed as an unsigned decimal. -/
def parseRequestVersion (req : DiscoveryRequest) : Option Nat :=
  if req.VersionInfo = "" then some 0
  else parseUint64 req.VersionInfo

/-- getRequestedResourceNamesSet from stream.go: the request resource names as a set. -/
def getRequestedResourceNamesSet (req : DiscoveryRequest) : Finset String :=
  req.ResourceNames.toFinset

/-- Outcome of respondToRequest: the reply decision, the updated proxy state,
and the number of times the proxy-reconnect metric was incremented. -/
structure RespondResult where
  reply : Bool
  proxy : Proxy
  reconnectMetricInc : Nat

/-- respondToRequest from stream.go: runs the xDS proto state machine on a
DiscoveryRequest and decides whether to reply, updating per-type proxy state. -/
def respondToRequest (proxy : Proxy) (req : DiscoveryRequest) : RespondResult :=
  match ValidURI req.TypeUrl with
  | none => ⟨false, proxy, 0⟩
  | some typeURL =>
    if typeURL = TypeURI.TypeEmptyURI then ⟨false, proxy, 0⟩
    else
      match parseRequestVersion req with
      | none => ⟨false, proxy, 0⟩
      | some requestVersion =>
        if req.ErrorDetail.isSome then ⟨false, proxy, 0⟩
        else if req.ResponseNonce = "" then
          ⟨true, SetSubscribedResources proxy typeURL (getRequestedResourceNamesSet req), 0⟩
        else if GetLastSentNonce proxy typeURL = "" then
          ⟨true,
            SetSubscribedResources
              (SetLastAppliedVersion (SetLastSentVersion proxy typeURL requestVersion)
                typeURL requestVersion)
              typeURL (getRequestedResourceNamesSet req),
            1⟩
        else if req.ResponseNonce ≠ GetLastSentNonce proxy typeURL then
          ⟨false, proxy, 0⟩
        else
          let ackProxy := SetLastAppliedVersion proxy typeURL requestVersion
          if IsWildcardTypeURI typeURL then ⟨false, ackProxy, 0⟩
          else
            let resourcesRequested := getRequestedResourceNamesSet req
            let subProxy := SetSubscribedResources ackProxy typeURL resourcesRequested
            let resourcesLastSent := GetLastResourcesSent subProxy typeURL
            if resourcesRequested ≠ resourcesLastSent then ⟨true, subProxy, 0⟩
            else ⟨false, subProxy, 0⟩

/-- shouldPushUpdate from stream.go: a control-plane push is allowed only once
LDS or CDS has been sent at least once to the proxy. -/
def shouldPushUpdate (p : Proxy) : Bool :=
  if GetLastSentNonce p TypeURI.TypeLDS = "" ∧ GetLastSentNonce p TypeURI.TypeCDS = "" then
    false
  else
    true

/-- The broadcast branch of the main loop in StreamAggregatedResources:
skip if shouldPushUpdate refuses, otherwise enqueue one job for CDS, EDS, LDS, RDS. -/
def handleBroadcast (p : Proxy) : Option (List TypeURI) :=
  if shouldPushUpdate p then
    some [TypeURI.TypeCDS, TypeURI.TypeEDS, TypeURI.TypeLDS, TypeURI.TypeRDS]
  else
    none

/-! Dispatcher / coalescer, from pkg/catalog/dispatcher.go. -/

/-- maxBroadcastDeadlineTime from dispatcher.go, in seconds: the hard deadline. -/
def maxBroadcastDeadlineTime : Nat := 15

/-- maxGraceDeadlineTime from dispatcher.go, in seconds: the sliding grace deadline. -/
def maxGraceDeadlineTime : Nat := 3

/-- Modelled from the spec: the announcement topic requesting an explicit broadcast.
The announcements package (typed-string topic constants) is not under src/. -/
def ScheduleProxyBroadcast : String := "schedule-proxy-broadcast"

/-- A pubsub message as consumed by the dispatcher: topic string plus the old and
new object handles (structural equality stands in for reflect.DeepEqual). -/
structure PubSubMessage (α : Type) where
  AnnouncementType : String
  OldObj : α
  NewObj : α

/-- The strings.HasSuffix test from Go, on the character list of the strings. -/
def hasSuffixStr (s suffixStr : String) : Bool :=
  List.isSuffixOf suffixStr.data s.data

/-- isDeltaUpdate from dispatcher.go: a message carries a delta unless its topic
ends in the updated variant and old and new objects are structurally equal. -/
def isDeltaUpdate {α : Type} [DecidableEq α] (m : PubSubMessage α) : Bool :=
  !(hasSuffixStr m.AnnouncementType "updated" && decide (m.OldObj = m.NewObj))

/-- The coalescing state of the dispatcher loop: whether a broadcast is scheduled
and the absolute fire times of the two timer channels (none = a channel that
never fires, as produced by a bare make). -/
structure DispatcherState where
  broadcastScheduled : Bool
  chanMovingDeadline : Option Nat
  chanMaxDeadline : Option Nat
deriving DecidableEq

/-- The dispatcher loop state before any event: unscheduled, no timer armed. -/
def DispatcherState.init : DispatcherState :=
  ⟨false, none, none⟩

/-- One input to the dispatcher selection loop: a pubsub message arriving at an
absolute time, or one of the two timer channels firing. -/
inductive DispatcherInput (α : Type) where
  | message (now : Nat) (msg : PubSubMessage α)
  | movingDeadlineFires
  | maxDeadlineFires

/-- Result of one dispatcher loop iteration: the next state, the number of
proxy-broadcast events published, and the broadcast-counter metric increment. -/
structure DispatcherStep where
  state : DispatcherState
  broadcastsPublished : Nat
  metricInc : Nat
deriving DecidableEq

/-- One iteration of the selection loop in dispatcher from dispatcher.go. -/
def dispatcherStep {α : Type} [DecidableEq α] (s : DispatcherState) :
    DispatcherInput α → DispatcherStep
  | DispatcherInput.message now m =>
    if isDeltaUpdate m || decide (m.AnnouncementType = ScheduleProxyBroadcast) then
      if !s.broadcastScheduled then
        ⟨⟨true, some (now + maxGraceDeadlineTime), some (now + maxBroadcastDeadlineTime)⟩, 0, 0⟩
      else
        ⟨{ s with chanMovingDeadline := some (now + maxGraceDeadlineTime) }, 0, 0⟩
    else
      ⟨s, 0, 0⟩
  | DispatcherInput.movingDeadlineFires => ⟨DispatcherState.init, 1, 1⟩
  | DispatcherInput.maxDeadlineFires => ⟨DispatcherState.init, 1, 1⟩

/-- Iterated dispatcher loop over a list of inputs, accumulating the number of
proxy-broadcast events published. -/
def runDispatcher {α : Type} [DecidableEq α] (s : DispatcherState) :
    List (DispatcherInput α) → DispatcherState × Nat
  | [] => (s, 0)
  | i :: rest =>
    let st := dispatcherStep s i
    let r := runDispatcher st.state rest
    (r.1, st.broadcastsPublished + r.2)

/-! Stream startup and pod-metadata recording, from pkg/envoy/ads/stream.go. -/

/-- The proxy kinds distinguished at startup (envoy.KindGateway skips metadata). -/
inductive ProxyKind where
  | KindSidecar
  | KindGateway
deriving DecidableEq

/-- A Kubernetes service account reference, as in identity.K8sServiceAccount. -/
structure K8sServiceAccount where
  Name : String
  Namespace : String
deriving DecidableEq

/-- An owner reference on a pod, reduced to the fields recordPodMetadata reads
(Controller nil is modelled as false). -/
structure OwnerReference where
  Controller : Bool
  Kind : String
  Name : String
deriving DecidableEq

/-- The pod fields recordPodMetadata reads from the pod found for a certificate. -/
structure PodInfo where
  UID : String
  Name : String
  Namespace : String
  ServiceAccountName : String
  OwnerReferences : List OwnerReference
deriving DecidableEq

/-- The owner-reference loop of recordPodMetadata: kind and name of the first
controller reference, empty strings when none exists. -/
def findControllerRef : List OwnerReference → String × String
  | [] => ("", "")
  | r :: rest => if r.Controller then (r.Kind, r.Name) else findControllerRef rest

/-- PodMetadata recorded on the proxy, as in envoy.PodMetadata. -/
structure PodMetadata where
  UID : String
  Name : String
  Namespace : String
  ServiceAccount : K8sServiceAccount
  WorkloadKind : String
  WorkloadName : String
deriving DecidableEq

/-- The pod metadata recordPodMetadata builds from a found pod. -/
def podMetadataOfPod (pod : PodInfo) : PodMetadata :=
  ⟨pod.UID, pod.Name, pod.Namespace,
    ⟨pod.ServiceAccountName, pod.Namespace⟩,
    (findControllerRef pod.OwnerReferences).1,
    (findControllerRef pod.OwnerReferences).2⟩

/-- The errors recordPodMetadata can return: failure to derive the service
identity from the certificate common name, or the service-account mismatch. -/
inductive RecordPodMetadataError where
  | identityParseError
  | serviceAccountMismatch
deriving DecidableEq

/-- recordPodMetadata from stream.go. Gateways skip recording; a pod-lookup miss
returns success without metadata; otherwise metadata is recorded on the proxy and
the certificate service account is checked against the pod service account.
The pod lookup and the certificate-identity derivation are external collaborators,
passed as oracle inputs (none = the corresponding lookup failed). -/
def recordPodMetadata (kind : ProxyKind) (pod : Option PodInfo)
    (certSA : Option K8sServiceAccount) :
    Option PodMetadata × Option RecordPodMetadataError :=
  if kind = ProxyKind.KindGateway then (none, none)
  else
    match pod with
    | none => (none, none)
    | some pd =>
      let md := podMetadataOfPod pd
      match certSA with
      | none => (some md, some RecordPodMetadataError.identityParseError)
      | some sa =>
        if sa ≠ md.ServiceAccount then
          (some md, some RecordPodMetadataError.serviceAccountMismatch)
        else
          (some md, none)

/-- The errors on which StreamAggregatedResources terminates before entering its
main loop. -/
inductive StreamError where
  | errUnauthenticated
  | errTooManyConnections
  | errInitializingProxy
  | errServiceAccountMismatch
deriving DecidableEq

/-- A stream that survived startup: the proxy was registered in the registry,
with the pod metadata recorded on it (if any). -/
structure StreamSession where
  registered : Bool
  podMetadata : Option PodMetadata
deriving DecidableEq

/-- The startup sequence of StreamAggregatedResources from stream.go, up to proxy
registration: client validation, the max-data-plane-connections cap check against
the registry count, proxy construction, and pod-metadata recording whose result
terminates the stream only when it is the service-account-mismatch error.
External collaborators (certificate validation, proxy construction, pod lookup,
identity derivation) are oracle inputs. An error result means the stream ends
before RegisterProxy, leaving the registry unchanged. -/
def StreamAggregatedResourcesStartup (validateOk : Bool)
    (maxDataPlaneConnections connectedProxyCount : Nat) (newProxyOk : Bool)
    (kind : ProxyKind) (pod : Option PodInfo) (certSA : Option K8sServiceAccount) :
    Except StreamError StreamSession :=
  if !validateOk then Except.error StreamError.errUnauthenticated
  else if maxDataPlaneConnections ≠ 0 ∧ connectedProxyCount ≥ maxDataPlaneConnections then
    Except.error StreamError.errTooManyConnections
  else if !newProxyOk then Except.error StreamError.errInitializingProxy
  else
    let r := recordPodMetadata kind pod certSA
    if r.2 = some RecordPodMetadataError.serviceAccountMismatch then
      Except.error StreamError.errServiceAccountMismatch
    else
      Except.ok ⟨true, r.1⟩

/-! Helper lemmas about the per-type state map. -/

theorem updateState_self (p : Proxy) (t : TypeURI) (f : XDSState → XDSState) :
    (p.updateState t f).state t = f (p.state t) := by
  simp [Proxy.updateState]

theorem updateState_other (p : Proxy) (t : TypeURI) (f : XDSState → XDSState)
    (u : TypeURI) (h : u ≠ t) : (p.updateState t f).state u = p.state u := by
  simp [Proxy.updateState, h]

/-- Claim C6: a request with error_detail present (a NACK) gets no reply and leaves the
proxy per-type state (all five fields, all type URIs) and the reconnect metric
untouched. -/
theorem respondToRequest_nack_inert (p : Proxy) (req : DiscoveryRequest)
    (h : req.ErrorDetail.isSome = true) :
    (respondToRequest p req).reply = false ∧
    (respondToRequest p req).proxy = p ∧
    (respondToRequest p req).reconnectMetricInc = 0 := by
  unfold respondToRequest
  cases hu : ValidURI req.TypeUrl with
  | none => exact ⟨rfl, rfl, rfl⟩
  | some t =>
    by_cases ht : t = TypeURI.TypeEmptyURI
    · simp [ht]
    · simp only [if_neg ht]
      cases hv : parseRequestVersion req with
      | none => exact ⟨rfl, rfl, rfl⟩
      | some v => simp [h]

theorem respondToRequest_nack_inert_witness :
    ((⟨"type.googleapis.com/envoy.config.listener.v3.Listener", "1", "n1", [],
        some "invalid config"⟩ : DiscoveryRequest).ErrorDetail.isSome = true) ∧
    ((respondToRequest ⟨fun _ => XDSState.init⟩
        ⟨"type.googleapis.com/envoy.config.listener.v3.Listener", "1", "n1", [],
          some "invalid config"⟩).reply = false ∧
      (respondToRequest ⟨fun _ => XDSState.init⟩
        ⟨"type.googleapis.com/envoy.config.listener.v3.Listener", "1", "n1", [],
          some "invalid config"⟩).proxy = ⟨fun _ => XDSState.init⟩ ∧
      (respondToRequest ⟨fun _ => XDSState.init⟩
        ⟨"type.googleapis.com/envoy.config.listener.v3.Listener", "1", "n1", [],
          some "invalid config"⟩).reconnectMetricInc = 0) :=
  ⟨rfl, respondToRequest_nack_inert ⟨fun _ => XDSState.init⟩
    ⟨"type.googleapis.com/envoy.config.listener.v3.Listener", "1", "n1", [],
      some "invalid config"⟩ rfl⟩

/-- Claim C7: a request with an unknown type-url, or the empty-sentinel type URI, or an
unparseable version, or (with no error detail) a non-empty response nonce that
does not match the non-empty last-sent nonce, gets no reply and changes no proxy
state; and an empty version_info parses to 0 rather than failing. -/
theorem respondToRequest_drop_cases (p : Proxy) (req : DiscoveryRequest)
    (h : ValidURI req.TypeUrl = none ∨
      ValidURI req.TypeUrl = some TypeURI.TypeEmptyURI ∨
      parseRequestVersion req = none ∨
      (req.ErrorDetail = none ∧ req.ResponseNonce ≠ "" ∧
        ∀ t, ValidURI req.TypeUrl = some t →
          GetLastSentNonce p t ≠ "" ∧ req.ResponseNonce ≠ GetLastSentNonce p t)) :
    ((respondToRequest p req).reply = false ∧
      (respondToRequest p req).proxy = p ∧
      (respondToRequest p req).reconnectMetricInc = 0) ∧
    (req.VersionInfo = "" → parseRequestVersion req = some 0) := by
  constructor
  · unfold respondToRequest
    rcases h with hu | hu | hv | ⟨he, hn, hs⟩
    · simp [hu]
    · simp [hu]
    · cases hu : ValidURI req.TypeUrl with
      | none => exact ⟨rfl, rfl, rfl⟩
      | some t =>
        by_cases ht : t = TypeURI.TypeEmptyURI
        · simp [ht]
        · simp [ht, hv]
    · cases hu : ValidURI req.TypeUrl with
      | none => exact ⟨rfl, rfl, rfl⟩
      | some t =>
        by_cases ht : t = TypeURI.TypeEmptyURI
        · simp [ht]
        · simp only [if_neg ht]
          cases hv : parseRequestVersion req with
          | none => exact ⟨rfl, rfl, rfl⟩
          | some v =>
            obtain ⟨hl, hm⟩ := hs t hu
            simp [he, hn, hl, hm]
  · intro h0
    simp [parseRequestVersion, h0]

theorem respondToRequest_drop_cases_witness :
    (ValidURI "bogus-type-url" = none) ∧
    ((respondToRequest ⟨fun _ => XDSState.init⟩
        ⟨"bogus-type-url", "", "", [], none⟩).reply = false ∧
      (respondToRequest ⟨fun _ => XDSState.init⟩
        ⟨"bogus-type-url", "", "", [], none⟩).proxy = ⟨fun _ => XDSState.init⟩ ∧
      (respondToRequest ⟨fun _ => XDSState.init⟩
        ⟨"bogus-type-url", "", "", [], none⟩).reconnectMetricInc = 0) ∧
    ((⟨"bogus-type-url", "", "", [], none⟩ : DiscoveryRequest).VersionInfo = "" →
      parseRequestVersion ⟨"bogus-type-url", "", "", [], none⟩ = some 0) :=
  ⟨by decide,
    (respondToRequest_drop_cases ⟨fun _ => XDSState.init⟩
      ⟨"bogus-type-url", "", "", [], none⟩ (Or.inl (by decide))).1,
    (respondToRequest_drop_cases ⟨fun _ => XDSState.init⟩
      ⟨"bogus-type-url", "", "", [], none⟩ (Or.inl (by decide))).2⟩

/-- Claim C3: a first request on the stream for a known, non-sentinel type URI (empty
response nonce, parseable version, no error detail) sets subscribed-resources to
the request resource set and replies, leaving last-sent-version, last-sent-nonce
and last-applied-version for that type URI untouched. -/
theorem respondToRequest_first_request (p : Proxy) (req : DiscoveryRequest)
    (t : TypeURI) (v : Nat)
    (hu : ValidURI req.TypeUrl = some t) (ht : t ≠ TypeURI.TypeEmptyURI)
    (hv : parseRequestVersion req = some v) (he : req.ErrorDetail = none)
    (hn : req.ResponseNonce = "") :
    (respondToRequest p req).reply = true ∧
    ((respondToRequest p req).proxy.state t).subscribedResources =
      getRequestedResourceNamesSet req ∧
    ((respondToRequest p req).proxy.state t).lastSentVersion =
      (p.state t).lastSentVersion ∧
    ((respondToRequest p req).proxy.state t).lastSentNonce =
      (p.state t).lastSentNonce ∧
    ((respondToRequest p req).proxy.state t).lastAppliedVersion =
      (p.state t).lastAppliedVersion := by
  have hr : respondToRequest p req =
      ⟨true, SetSubscribedResources p t (getRequestedResourceNamesSet req), 0⟩ := by
    unfold respondToRequest
    simp [hu, ht, hv, he, hn]
  rw [hr]
  simp [SetSubscribedResources, Proxy.updateState]

theorem respondToRequest_first_request_witness :
    (ValidURI "type.googleapis.com/envoy.config.cluster.v3.Cluster" =
      some TypeURI.TypeCDS) ∧
    ((respondToRequest ⟨fun _ => XDSState.init⟩
        ⟨"type.googleapis.com/envoy.config.cluster.v3.Cluster", "", "", [],
          none⟩).reply = true ∧
      ((respondToRequest ⟨fun _ => XDSState.init⟩
        ⟨"type.googleapis.com/envoy.config.cluster.v3.Cluster", "", "", [],
          none⟩).proxy.state TypeURI.TypeCDS).subscribedResources =
        getRequestedResourceNamesSet
          ⟨"type.googleapis.com/envoy.config.cluster.v3.Cluster", "", "", [], none⟩) :=
  ⟨by decide,
    (respondToRequest_first_request ⟨fun _ => XDSState.init⟩
      ⟨"type.googleapis.com/envoy.config.cluster.v3.Cluster", "", "", [], none⟩
      TypeURI.TypeCDS 0 (by decide) (by decide) (by decide) rfl rfl).1,
    (respondToRequest_first_request ⟨fun _ => XDSState.init⟩
      ⟨"type.googleapis.com/envoy.config.cluster.v3.Cluster", "", "", [], none⟩
      TypeURI.TypeCDS 0 (by decide) (by decide) (by decide) rfl rfl).2.1⟩

/-- Claim C2: a request with non-empty response nonce, no error detail, and an empty
last-sent nonce for its known non-sentinel type URI (the reconnect case) sets
last-sent-version and last-applied-version to the parsed request version, sets
subscribed-resources to the request resource set, increments the proxy-reconnect
metric by one, and replies. -/
theorem respondToRequest_reconnect (p : Proxy) (req : DiscoveryRequest)
    (t : TypeURI) (v : Nat)
    (hu : ValidURI req.TypeUrl = some t) (ht : t ≠ TypeURI.TypeEmptyURI)
    (hv : parseRequestVersion req = some v) (he : req.ErrorDetail = none)
    (hn : req.ResponseNonce ≠ "") (hl : GetLastSentNonce p t = "") :
    (respondToRequest p req).reply = true ∧
    ((respondToRequest p req).proxy.state t).lastSentVersion = v ∧
    ((respondToRequest p req).proxy.state t).lastAppliedVersion = v ∧
    ((respondToRequest p req).proxy.state t).subscribedResources =
      getRequestedResourceNamesSet req ∧
    (respondToRequest p req).reconnectMetricInc = 1 := by
  have hr : respondToRequest p req =
      ⟨true,
        SetSubscribedResources
          (SetLastAppliedVersion (SetLastSentVersion p t v) t v) t
          (getRequestedResourceNamesSet req),
        1⟩ := by
    unfold respondToRequest
    simp [hu, ht, hv, he, hn, hl]
  rw [hr]
  simp [SetSubscribedResources, SetLastAppliedVersion, SetLastSentVersion,
    Proxy.updateState]

theorem respondToRequest_reconnect_witness :
    (GetLastSentNonce ⟨fun _ => XDSState.init⟩ TypeURI.TypeLDS = "") ∧
    ((respondToRequest ⟨fun _ => XDSState.init⟩
        ⟨"type.googleapis.com/envoy.config.listener.v3.Listener", "42", "prev",
          ["res1"], none⟩).reply = true ∧
      ((respondToRequest ⟨fun _ => XDSState.init⟩
        ⟨"type.googleapis.com/envoy.config.listener.v3.Listener", "42", "prev",
          ["res1"], none⟩).proxy.state TypeURI.TypeLDS).lastSentVersion = 42 ∧
      (respondToRequest ⟨fun _ => XDSState.init⟩
        ⟨"type.googleapis.com/envoy.config.listener.v3.Listener", "42", "prev",
          ["res1"], none⟩).reconnectMetricInc = 1) :=
  ⟨rfl,
    (respondToRequest_reconnect ⟨fun _ => XDSState.init⟩
      ⟨"type.googleapis.com/envoy.config.listener.v3.Listener", "42", "prev",
        ["res1"], none⟩ TypeURI.TypeLDS 42 (by decide) (by decide) (by decide)
      rfl (by decide) rfl).1,
    (respondToRequest_reconnect ⟨fun _ => XDSState.init⟩
      ⟨"type.googleapis.com/envoy.config.listener.v3.Listener", "42", "prev",
        ["res1"], none⟩ TypeURI.TypeLDS 42 (by decide) (by decide) (by decide)
      rfl (by decide) rfl).2.1,
    (respondToRequest_reconnect ⟨fun _ => XDSState.init⟩
      ⟨"type.googleapis.com/envoy.config.listener.v3.Listener", "42", "prev",
        ["res1"], none⟩ TypeURI.TypeLDS 42 (by decide) (by decide) (by decide)
      rfl (by decide) rfl).2.2.2.2⟩

/-- Helper: on a nonce-matching request (no error, known non-sentinel type,
parseable version, non-empty matching nonce), respondToRequest reduces to the
ACK branch of the state machine. -/
theorem respondToRequest_ack_branch (p : Proxy) (req : DiscoveryRequest)
    (t : TypeURI) (v : Nat)
    (hu : ValidURI req.TypeUrl = some t) (ht : t ≠ TypeURI.TypeEmptyURI)
    (hv : parseRequestVersion req = some v) (he : req.ErrorDetail = none)
    (hl : GetLastSentNonce p t ≠ "") (hm : req.ResponseNonce = GetLastSentNonce p t) :
    respondToRequest p req =
      (if IsWildcardTypeURI t then ⟨false, SetLastAppliedVersion p t v, 0⟩
       else if getRequestedResourceNamesSet req ≠
           GetLastResourcesSent
             (SetSubscribedResources (SetLastAppliedVersion p t v) t
               (getRequestedResourceNamesSet req)) t then
         ⟨true, SetSubscribedResources (SetLastAppliedVersion p t v) t
           (getRequestedResourceNamesSet req), 0⟩
       else
         ⟨false, SetSubscribedResources (SetLastAppliedVersion p t v) t
           (getRequestedResourceNamesSet req), 0⟩) := by
  have hn : req.ResponseNonce ≠ "" := by rw [hm]; exact hl
  unfold respondToRequest
  simp [hu, ht, hv, he, hn, hl, hm]

/-- Helper: none of the setters touches the last-resources-sent field. -/
theorem lastResourcesSent_stable (p : Proxy) (t : TypeURI) (v : Nat)
    (r : Finset String) :
    GetLastResourcesSent
      (SetSubscribedResources (SetLastAppliedVersion p t v) t r) t =
      (p.state t).lastResourcesSent := by
  simp [GetLastResourcesSent, SetSubscribedResources, SetLastAppliedVersion,
    Proxy.updateState]

/-- Claim C1, amended: on a nonce-matching, error-free request the handler sets
last-applied-version to the parsed request version; for a wildcard type URI
(CDS, LDS) it never replies, regardless of resource names; for a non-wildcard
type URI it sets subscribed-resources to the request resource set and replies
exactly when that set differs from last-sent-resources, so a pure ACK carrying
the last-sent resources produces no response and changes only
last-applied-version and subscribed-resources (the latter being overwritten
with the request resource set). -/
theorem respondToRequest_ack (p : Proxy) (req : DiscoveryRequest)
    (t : TypeURI) (v : Nat)
    (hu : ValidURI req.TypeUrl = some t) (ht : t ≠ TypeURI.TypeEmptyURI)
    (hv : parseRequestVersion req = some v) (he : req.ErrorDetail = none)
    (hl : GetLastSentNonce p t ≠ "") (hm : req.ResponseNonce = GetLastSentNonce p t) :
    ((respondToRequest p req).proxy.state t).lastAppliedVersion = v ∧
    (IsWildcardTypeURI t = true →
      (respondToRequest p req).reply = false ∧
      (respondToRequest p req).proxy = SetLastAppliedVersion p t v) ∧
    (IsWildcardTypeURI t = false →
      ((respondToRequest p req).proxy.state t).subscribedResources =
        getRequestedResourceNamesSet req ∧
      ((respondToRequest p req).reply = true ↔
        getRequestedResourceNamesSet req ≠ (p.state t).lastResourcesSent) ∧
      (getRequestedResourceNamesSet req = (p.state t).lastResourcesSent →
        (respondToRequest p req).reply = false ∧
        ((respondToRequest p req).proxy.state t).lastSentVersion =
          (p.state t).lastSentVersion ∧
        ((respondToRequest p req).proxy.state t).lastSentNonce =
          (p.state t).lastSentNonce ∧
        ((respondToRequest p req).proxy.state t).lastResourcesSent =
          (p.state t).lastResourcesSent ∧
        ∀ u, u ≠ t → (respondToRequest p req).proxy.state u = p.state u)) ∧
    (respondToRequest p req).reconnectMetricInc = 0 := by
  rw [respondToRequest_ack_branch p req t v hu ht hv he hl hm]
  rw [lastResourcesSent_stable]
  have hsub : (SetSubscribedResources (SetLastAppliedVersion p t v) t
      (getRequestedResourceNamesSet req)).state t =
      ⟨(p.state t).lastSentVersion, v, (p.state t).lastSentNonce,
        getRequestedResourceNamesSet req, (p.state t).lastResourcesSent⟩ := by
    simp [SetSubscribedResources, SetLastAppliedVersion, Proxy.updateState]
  have hother : ∀ u, u ≠ t →
      (SetSubscribedResources (SetLastAppliedVersion p t v) t
        (getRequestedResourceNamesSet req)).state u = p.state u := by
    intro u hut
    simp [SetSubscribedResources, SetLastAppliedVersion, Proxy.updateState, hut]
  by_cases hw : IsWildcardTypeURI t
  · rw [if_pos hw]
    refine ⟨?_, fun _ => ⟨rfl, rfl⟩, fun hfalse => by simp [hw] at hfalse, rfl⟩
    simp [SetLastAppliedVersion, Proxy.updateState]
  · rw [if_neg hw]
    by_cases hd : getRequestedResourceNamesSet req = (p.state t).lastResourcesSent
    · rw [if_neg (fun hcon => hcon hd)]
      refine ⟨by simp [hsub], fun htrue => by simp [htrue] at hw, fun _ => ?_, rfl⟩
      refine ⟨by simp [hsub], by simp [hd], fun _ => ?_⟩
      exact ⟨rfl, by simp [hsub], by simp [hsub], by simp [hsub], hother⟩
    · rw [if_pos hd]
      refine ⟨by simp [hsub], fun htrue => by simp [htrue] at hw, fun _ => ?_, rfl⟩
      exact ⟨by simp [hsub], by simp [hd], fun hcon => absurd hcon hd⟩

/-- A concrete proxy whose RDS subscription differs from the RDS resources last
sent: RDS state has version 5, applied 4, nonce n1, subscribed resource a,
last sent resource b. -/
def ackProxyC1 : Proxy :=
  ⟨fun u => if u = TypeURI.TypeRDS then ⟨5, 4, "n1", {"a"}, {"b"}⟩ else XDSState.init⟩

/-- A pure RDS ACK against ackProxyC1: matching nonce n1, version 5, carrying
exactly the resource set last sent. -/
def ackRequestC1 : DiscoveryRequest :=
  ⟨"type.googleapis.com/envoy.config.route.v3.RouteConfiguration", "5", "n1",
    ["b"], none⟩

/-- Counterexample to claim C1 as stated, refuting the literal reading of its pure-ACK clause: an ACK carrying
exactly the last-sent resources (matching non-empty nonce, no error) produces no
response, but it changes subscribed-resources as well as last-applied-version,
because the handler overwrites the subscription with the request resource set. -/
theorem respondToRequest_pure_ack_changes_subscribed :
    getRequestedResourceNamesSet ackRequestC1 =
      (ackProxyC1.state TypeURI.TypeRDS).lastResourcesSent ∧
    ackRequestC1.ResponseNonce = GetLastSentNonce ackProxyC1 TypeURI.TypeRDS ∧
    GetLastSentNonce ackProxyC1 TypeURI.TypeRDS ≠ "" ∧
    ackRequestC1.ErrorDetail = none ∧
    (respondToRequest ackProxyC1 ackRequestC1).reply = false ∧
    ((respondToRequest ackProxyC1
        ackRequestC1).proxy.state TypeURI.TypeRDS).subscribedResources ≠
      (ackProxyC1.state TypeURI.TypeRDS).subscribedResources := by
  decide

/-- A concrete proxy that has been sent CDS version 3 under nonce n2. -/
def ackWitProxy : Proxy :=
  ⟨fun u => if u = TypeURI.TypeCDS then ⟨3, 2, "n2", ∅, ∅⟩ else XDSState.init⟩

/-- A wildcard CDS ACK against ackWitProxy: matching nonce n2, version 3. -/
def ackWitReq : DiscoveryRequest :=
  ⟨"type.googleapis.com/envoy.config.cluster.v3.Cluster", "3", "n2", [], none⟩

theorem respondToRequest_ack_witness :
    GetLastSentNonce ackWitProxy TypeURI.TypeCDS ≠ "" ∧
    ackWitReq.ResponseNonce = GetLastSentNonce ackWitProxy TypeURI.TypeCDS ∧
    ((respondToRequest ackWitProxy
        ackWitReq).proxy.state TypeURI.TypeCDS).lastAppliedVersion = 3 ∧
    (respondToRequest ackWitProxy ackWitReq).reply = false := by
  have h := respondToRequest_ack ackWitProxy ackWitReq TypeURI.TypeCDS 3
    (by decide) (by decide) (by decide) rfl (by decide) (by decide)
  exact ⟨by decide, by decide, h.1, (h.2.1 (by decide)).1⟩

/-- Claim C5: a proxy-broadcast event is skipped when both the LDS and the CDS
last-sent nonces are empty; otherwise exactly one job is enqueued, its type-URI
list is exactly CDS, EDS, LDS, RDS, and it never includes SDS. -/
theorem stream_broadcast_gating (p : Proxy) :
    (GetLastSentNonce p TypeURI.TypeLDS = "" ∧
        GetLastSentNonce p TypeURI.TypeCDS = "" →
      handleBroadcast p = none) ∧
    (GetLastSentNonce p TypeURI.TypeLDS ≠ "" ∨
        GetLastSentNonce p TypeURI.TypeCDS ≠ "" →
      handleBroadcast p =
        some [TypeURI.TypeCDS, TypeURI.TypeEDS, TypeURI.TypeLDS, TypeURI.TypeRDS] ∧
      ∀ jobs, handleBroadcast p = some jobs → TypeURI.TypeSDS ∉ jobs) := by
  constructor
  · intro h
    simp [handleBroadcast, shouldPushUpdate, h.1, h.2]
  · intro h
    have hcond : ¬(GetLastSentNonce p TypeURI.TypeLDS = "" ∧
        GetLastSentNonce p TypeURI.TypeCDS = "") := by
      rcases h with h1 | h2
      · exact fun hc => h1 hc.1
      · exact fun hc => h2 hc.2
    have hb : handleBroadcast p =
        some [TypeURI.TypeCDS, TypeURI.TypeEDS, TypeURI.TypeLDS, TypeURI.TypeRDS] := by
      simp [handleBroadcast, shouldPushUpdate, hcond]
    refine ⟨hb, ?_⟩
    intro jobs hj
    rw [hb] at hj
    cases hj
    decide

theorem stream_broadcast_gating_witness :
    (GetLastSentNonce ackWitProxy TypeURI.TypeCDS ≠ "") ∧
    handleBroadcast ackWitProxy =
      some [TypeURI.TypeCDS, TypeURI.TypeEDS, TypeURI.TypeLDS, TypeURI.TypeRDS] ∧
    (GetLastSentNonce ⟨fun _ => XDSState.init⟩ TypeURI.TypeLDS = "" ∧
      GetLastSentNonce ⟨fun _ => XDSState.init⟩ TypeURI.TypeCDS = "") ∧
    handleBroadcast ⟨fun _ => XDSState.init⟩ = none :=
  ⟨by decide,
    ((stream_broadcast_gating ackWitProxy).2 (Or.inr (by decide))).1,
    ⟨rfl, rfl⟩,
    (stream_broadcast_gating ⟨fun _ => XDSState.init⟩).1 ⟨rfl, rfl⟩⟩

/-- Claim C9: with a non-zero connection cap and a registry count at or above it, an
authenticated stream terminates with the too-many-connections error (so the
proxy is never registered and the registry is unchanged); with the cap set to
zero the startup never returns that error. -/
theorem stream_connection_cap (validateOk : Bool)
    (maxConns count : Nat) (newProxyOk : Bool) (kind : ProxyKind)
    (pod : Option PodInfo) (certSA : Option K8sServiceAccount) :
    (validateOk = true → maxConns ≠ 0 → count ≥ maxConns →
      StreamAggregatedResourcesStartup validateOk maxConns count newProxyOk
          kind pod certSA =
        Except.error StreamError.errTooManyConnections) ∧
    (maxConns = 0 →
      StreamAggregatedResourcesStartup validateOk maxConns count newProxyOk
          kind pod certSA ≠
        Except.error StreamError.errTooManyConnections) := by
  constructor
  · intro hval hmax hcount
    simp [StreamAggregatedResourcesStartup, hval, hmax, hcount]
  · intro h0
    unfold StreamAggregatedResourcesStartup
    have hc : ¬(maxConns ≠ 0 ∧ count ≥ maxConns) := by simp [h0]
    cases validateOk with
    | false => simp
    | true =>
      simp only [Bool.not_true, if_neg hc, Bool.false_eq_true, if_false]
      cases newProxyOk with
      | false => simp
      | true =>
        simp only [Bool.not_true, Bool.false_eq_true, if_false]
        by_cases hsam : (recordPodMetadata kind pod certSA).2 =
            some RecordPodMetadataError.serviceAccountMismatch
        · simp [hsam]
        · simp [hsam]

theorem stream_connection_cap_witness :
    ((3 : Nat) ≠ 0 ∧ (3 : Nat) ≥ 3 ∧
      StreamAggregatedResourcesStartup true 3 3 true ProxyKind.KindSidecar
          none none =
        Except.error StreamError.errTooManyConnections) ∧
    ((0 : Nat) = 0 ∧
      StreamAggregatedResourcesStartup true 0 3 true ProxyKind.KindSidecar
          none none ≠
        Except.error StreamError.errTooManyConnections) :=
  ⟨⟨by decide, by decide,
      (stream_connection_cap true 3 3 true ProxyKind.KindSidecar none none).1
        rfl (by decide) (by decide)⟩,
    ⟨rfl,
      (stream_connection_cap true 0 3 true ProxyKind.KindSidecar none none).2
        rfl⟩⟩

/-- Claim C10: once past the cap check, the pod-metadata result terminates the stream
exactly when it is the service-account-mismatch error. A gateway proxy skips
recording and is registered; a pod-lookup miss registers the proxy without pod
metadata; a failure to derive the certificate identity is ignored and the proxy
is registered with the recorded metadata; in all non-mismatch cases the proxy is
registered. -/
theorem stream_pod_metadata_gating (maxConns count : Nat) (kind : ProxyKind)
    (pod : Option PodInfo) (certSA : Option K8sServiceAccount)
    (hcap : maxConns = 0 ∨ count < maxConns) :
    (kind = ProxyKind.KindGateway →
      StreamAggregatedResourcesStartup true maxConns count true kind pod certSA =
        Except.ok ⟨true, none⟩) ∧
    (pod = none →
      StreamAggregatedResourcesStartup true maxConns count true kind pod certSA =
        Except.ok ⟨true, none⟩) ∧
    (kind = ProxyKind.KindSidecar → certSA = none →
      ∀ pd, pod = some pd →
        StreamAggregatedResourcesStartup true maxConns count true kind pod certSA =
          Except.ok ⟨true, some (podMetadataOfPod pd)⟩) ∧
    ((recordPodMetadata kind pod certSA).2 =
        some RecordPodMetadataError.serviceAccountMismatch →
      StreamAggregatedResourcesStartup true maxConns count true kind pod certSA =
        Except.error StreamError.errServiceAccountMismatch) ∧
    ((recordPodMetadata kind pod certSA).2 ≠
        some RecordPodMetadataError.serviceAccountMismatch →
      StreamAggregatedResourcesStartup true maxConns count true kind pod certSA =
        Except.ok ⟨true, (recordPodMetadata kind pod certSA).1⟩) := by
  have hc : ¬(maxConns ≠ 0 ∧ count ≥ maxConns) := by
    rcases hcap with h0 | hlt
    · simp [h0]
    · exact fun hcon => absurd hcon.2 (Nat.not_le.mpr hlt)
  refine ⟨?_, ?_, ?_, ?_, ?_⟩
  · intro hg
    simp [StreamAggregatedResourcesStartup, hc, recordPodMetadata, hg]
  · intro hp
    cases kind with
    | KindGateway => simp [StreamAggregatedResourcesStartup, hc, recordPodMetadata]
    | KindSidecar => simp [StreamAggregatedResourcesStartup, hc, recordPodMetadata, hp]
  · intro hk hsa pd hpd
    simp [StreamAggregatedResourcesStartup, hc, recordPodMetadata, hk, hsa, hpd]
  · intro hsam
    simp [StreamAggregatedResourcesStartup, hc, hsam]
  · intro hok
    simp [StreamAggregatedResourcesStartup, hc, hok]

/-- A concrete pod whose service account does not match certWitSA. -/
def podWit : PodInfo :=
  ⟨"uid1", "pod1", "ns1", "sa1", [⟨true, "Deployment", "dep1"⟩]⟩

theorem stream_pod_metadata_gating_witness :
    ((0 : Nat) = 0 ∨ (5 : Nat) < 0) ∧
    StreamAggregatedResourcesStartup true 0 5 true ProxyKind.KindGateway
        (some podWit) (some ⟨"other", "ns1"⟩) =
      Except.ok ⟨true, none⟩ ∧
    StreamAggregatedResourcesStartup true 0 5 true ProxyKind.KindSidecar
        none none =
      Except.ok ⟨true, none⟩ ∧
    StreamAggregatedResourcesStartup true 0 5 true ProxyKind.KindSidecar
        (some podWit) none =
      Except.ok ⟨true, some (podMetadataOfPod podWit)⟩ ∧
    StreamAggregatedResourcesStartup true 0 5 true ProxyKind.KindSidecar
        (some podWit) (some ⟨"other", "ns1"⟩) =
      Except.error StreamError.errServiceAccountMismatch :=
  ⟨Or.inl rfl,
    (stream_pod_metadata_gating 0 5 ProxyKind.KindGateway (some podWit)
      (some ⟨"other", "ns1"⟩) (Or.inl rfl)).1 rfl,
    (stream_pod_metadata_gating 0 5 ProxyKind.KindSidecar none none
      (Or.inl rfl)).2.1 rfl,
    (stream_pod_metadata_gating 0 5 ProxyKind.KindSidecar (some podWit) none
      (Or.inl rfl)).2.2.1 rfl rfl podWit rfl,
    (stream_pod_metadata_gating 0 5 ProxyKind.KindSidecar (some podWit)
      (some ⟨"other", "ns1"⟩) (Or.inl rfl)).2.2.2.1 (by decide)⟩

/-- Helper: a pubsub message never publishes a broadcast in the step it arrives. -/
theorem dispatcherStep_message_no_publish {α : Type} [DecidableEq α]
    (s : DispatcherState) (now : Nat) (m : PubSubMessage α) :
    (dispatcherStep s (DispatcherInput.message now m)).broadcastsPublished = 0 := by
  by_cases hq : (isDeltaUpdate m ||
      decide (m.AnnouncementType = ScheduleProxyBroadcast)) = true
  · by_cases hb : s.broadcastScheduled
    · simp [dispatcherStep, hq, hb]
    · simp [dispatcherStep, hq, hb]
  · simp [dispatcherStep, hq]

/-- Helper: a run consisting only of pubsub messages publishes no broadcast. -/
theorem runDispatcher_messages_no_publish {α : Type} [DecidableEq α]
    (l : List (DispatcherInput α)) :
    ∀ s : DispatcherState,
      (∀ i ∈ l, ∃ now m, i = DispatcherInput.message now m) →
      (runDispatcher s l).2 = 0 := by
  induction l with
  | nil => intro s _; rfl
  | cons i rest ih =>
    intro s h
    obtain ⟨now, m, hi⟩ := h i (List.mem_cons_self i rest)
    subst hi
    have h2 := ih (dispatcherStep s (DispatcherInput.message now m)).state
      (fun j hj => h j (List.mem_cons_of_mem _ hj))
    simp [runDispatcher, dispatcherStep_message_no_publish, h2]

/-- Helper: splitting a dispatcher run at a list append. -/
theorem runDispatcher_append {α : Type} [DecidableEq α]
    (l1 l2 : List (DispatcherInput α)) :
    ∀ s : DispatcherState,
      (runDispatcher s (l1 ++ l2)).2 =
        (runDispatcher s l1).2 + (runDispatcher (runDispatcher s l1).1 l2).2 := by
  induction l1 with
  | nil => intro s; simp [runDispatcher]
  | cons i rest ih =>
    intro s
    simp [runDispatcher, ih, Nat.add_assoc]

/-- Claim C8: a pubsub message qualifies as a delta exactly when its topic does not end
in updated or its old and new objects differ structurally; a message that is
neither a delta nor a schedule-proxy-broadcast leaves the coalescing state
untouched and publishes nothing. -/
theorem dispatcher_delta_filter {α : Type} [DecidableEq α]
    (s : DispatcherState) (now : Nat) (m : PubSubMessage α) :
    (isDeltaUpdate m = true ↔
      (hasSuffixStr m.AnnouncementType "updated" = false ∨ m.OldObj ≠ m.NewObj)) ∧
    (isDeltaUpdate m = false → m.AnnouncementType ≠ ScheduleProxyBroadcast →
      dispatcherStep s (DispatcherInput.message now m) = ⟨s, 0, 0⟩) := by
  constructor
  · unfold isDeltaUpdate
    rcases hend : hasSuffixStr m.AnnouncementType "updated" <;>
      by_cases heq : m.OldObj = m.NewObj <;> simp [hend, heq]
  · intro hnd hnb
    simp [dispatcherStep, hnd, hnb]

theorem dispatcher_delta_filter_witness :
    (isDeltaUpdate ⟨"pod-updated", (0 : Nat), 0⟩ = false) ∧
    ("pod-updated" ≠ ScheduleProxyBroadcast) ∧
    dispatcherStep ⟨true, some 4, some 16⟩
        (DispatcherInput.message 2 ⟨"pod-updated", (0 : Nat), 0⟩) =
      ⟨⟨true, some 4, some 16⟩, 0, 0⟩ ∧
    (isDeltaUpdate ⟨"pod-updated", (0 : Nat), 1⟩ = true ↔
      (hasSuffixStr "pod-updated" "updated" = false ∨ (0 : Nat) ≠ 1)) :=
  ⟨by decide, by decide,
    (dispatcher_delta_filter ⟨true, some 4, some 16⟩ 2
      ⟨"pod-updated", (0 : Nat), 0⟩).2 (by decide) (by decide),
    (dispatcher_delta_filter ⟨true, some 4, some 16⟩ 2
      ⟨"pod-updated", (0 : Nat), 1⟩).1⟩

/-- Claim C4: from the unscheduled state a qualifying event arms the grace timer at
now + 3 s and the hard timer at now + 15 s and marks a broadcast scheduled; while
scheduled, a further qualifying event re-arms only the grace timer and the hard
timer keeps its fire time; either timer firing publishes exactly one proxy
broadcast, increments the counter metric once, clears both timers and returns to
the unscheduled state; hence a window of qualifying events followed by the first
timer to fire publishes exactly one broadcast. -/
theorem dispatcher_coalescing {α : Type} [DecidableEq α]
    (s : DispatcherState) (now : Nat) (m : PubSubMessage α) :
    ((isDeltaUpdate m ||
        decide (m.AnnouncementType = ScheduleProxyBroadcast)) = true →
      (s.broadcastScheduled = false →
        dispatcherStep s (DispatcherInput.message now m) =
          ⟨⟨true, some (now + maxGraceDeadlineTime),
            some (now + maxBroadcastDeadlineTime)⟩, 0, 0⟩) ∧
      (s.broadcastScheduled = true →
        dispatcherStep s (DispatcherInput.message now m) =
          ⟨⟨true, some (now + maxGraceDeadlineTime), s.chanMaxDeadline⟩, 0, 0⟩)) ∧
    (@dispatcherStep α _ s DispatcherInput.movingDeadlineFires =
      ⟨DispatcherState.init, 1, 1⟩) ∧
    (@dispatcherStep α _ s DispatcherInput.maxDeadlineFires =
      ⟨DispatcherState.init, 1, 1⟩) ∧
    (∀ inputs : List (DispatcherInput α),
      (∀ i ∈ inputs, ∃ tm mm, i = DispatcherInput.message tm mm ∧
        (isDeltaUpdate mm ||
          decide (mm.AnnouncementType = ScheduleProxyBroadcast)) = true) →
      ∀ fire : DispatcherInput α,
        (fire = DispatcherInput.movingDeadlineFires ∨
          fire = DispatcherInput.maxDeadlineFires) →
        (runDispatcher DispatcherState.init (inputs ++ [fire])).2 = 1) := by
  refine ⟨?_, rfl, rfl, ?_⟩
  · intro hq
    constructor
    · intro hb
      simp [dispatcherStep, hq, hb]
    · intro hb
      obtain ⟨b, mv, mx⟩ := s
      cases hb
      simp [dispatcherStep, hq]
  · intro inputs hmsgs fire hfire
    rw [runDispatcher_append]
    have h0 : (runDispatcher DispatcherState.init inputs).2 = 0 :=
      runDispatcher_messages_no_publish inputs DispatcherState.init
        (fun i hi => by
          obtain ⟨tm, mm, hi2, _⟩ := hmsgs i hi
          exact ⟨tm, mm, hi2⟩)
    rw [h0]
    rcases hfire with rfl | rfl <;> simp [runDispatcher, dispatcherStep]

/-- Two qualifying delta events inside one window followed by the grace timer
firing: a single broadcast is published, and the step-level facts of the
coalescing theorem hold on concrete states. -/
theorem dispatcher_coalescing_witness :
    ((isDeltaUpdate ⟨"pod-added", (0 : Nat), 1⟩ ||
        decide (("pod-added" : String) = ScheduleProxyBroadcast)) = true) ∧
    dispatcherStep DispatcherState.init
        (DispatcherInput.message 0 ⟨"pod-added", (0 : Nat), 1⟩) =
      ⟨⟨true, some 3, some 15⟩, 0, 0⟩ ∧
    dispatcherStep ⟨true, some 3, some 15⟩
        (DispatcherInput.message 2 ⟨"pod-added", (0 : Nat), 1⟩) =
      ⟨⟨true, some 5, some 15⟩, 0, 0⟩ ∧
    (runDispatcher DispatcherState.init
        ([DispatcherInput.message 0 ⟨"pod-added", (0 : Nat), 1⟩,
          DispatcherInput.message 2 ⟨"pod-added", (0 : Nat), 1⟩] ++
          [DispatcherInput.movingDeadlineFires])).2 = 1 := by
  refine ⟨by decide, ?_, ?_, ?_⟩
  · exact ((dispatcher_coalescing DispatcherState.init 0
      ⟨"pod-added", (0 : Nat), 1⟩).1 (by decide)).1 rfl
  · exact ((dispatcher_coalescing (⟨true, some 3, some 15⟩ : DispatcherState) 2
      ⟨"pod-added", (0 : Nat), 1⟩).1 (by decide)).2 rfl
  · exact (dispatcher_coalescing DispatcherState.init 0
      (⟨"pod-added", (0 : Nat), 1⟩ : PubSubMessage Nat)).2.2.2
      [DispatcherInput.message 0 ⟨"pod-added", (0 : Nat), 1⟩,
        DispatcherInput.message 2 ⟨"pod-added", (0 : Nat), 1⟩]
      (by
        intro i hi
        simp only [List.mem_cons, List.not_mem_nil, or_false] at hi
        rcases hi with rfl | rfl
        · exact ⟨0, ⟨"pod-added", (0 : Nat), 1⟩, rfl, by decide⟩
        · exact ⟨2, ⟨"pod-added", (0 : Nat), 1⟩, rfl, by decide⟩)
      DispatcherInput.movingDeadlineFires (Or.inl rfl)

end OSM
